import Mathlib

/-
Verification of the meshestra dependency-injection container and
ambient transaction-propagation engine.

The definitions below are a shallow embedding of the Rust sources:

  * `dashGet` / `dashInsert` model the `DashMap` key-value maps used by
    `Container` (src/src/di/container.rs), keyed by `TypeId` (modelled as
    `Nat`).  `DashMap.insert` replaces any previous entry for the key, so
    `dashInsert` places the new pair in front and drops stale pairs for
    the same key.
  * `MErr` mirrors `MeshestraError` (src/src/error.rs) and `MErr.display`
    mirrors its `thiserror`-derived `Display` strings.
  * `Container` with `register`, `register_trait`, `resolve`,
    `resolve_trait`, `contains` mirrors src/src/di/container.rs.  Type
    erasure is modelled by tagging each stored instance with the `TypeId`
    it was registered under; `downcast` succeeds exactly when the tag
    matches the requested identity.  A caster registered by
    `register_trait` records the implementation identity it expects and
    the coercion function on payloads; invoking it on a payload with a
    different tag is the `expect` panic in the Rust closure.
  * `get_current_transaction` and `transactionalBoundary` mirror
    src/src/transactional/mod.rs and the code generated by
    `transactional_attribute` (src/meshestra-macro/src/transactional.rs).
    The tokio task-local slot is explicit state of type
    `Option (Option Nat)`: `none` means no scope is installed (so
    `try_with` fails and `get_current_transaction` yields `none`), while
    `some v` means a scope with value `v` is installed.  `scope` runs its
    body under the new value and restores the surrounding value
    afterwards, which the embedding expresses by running the wrapped
    operation on the inner slot value while the boundary's resulting slot
    is the unchanged outer one.  Invocations of the transaction manager
    and of the handle's finalizers are recorded as a `TxEvent` trace.
  * `SeaOrmTransaction` mirrors
    src/examples/example-server/src/infrastructure/transaction.rs, where
    the underlying SeaORM transaction is held in an `Option` consumed by
    `take()` on the first finalize.
-/

/-- Lookup in a key-value map keyed by type identity; returns the value
stored under `key`, if any. -/
def dashGet {β : Type} : List (Nat × β) → Nat → Option β
  | [], _ => none
  | (k, v) :: rest, key => if k = key then some v else dashGet rest key

/-- Insert into a key-value map keyed by type identity, replacing any
previous entry for the same key (`DashMap.insert` semantics). -/
def dashInsert {β : Type} (entries : List (Nat × β)) (key : Nat) (v : β) :
    List (Nat × β) :=
  (key, v) :: entries.filter (fun e => e.1 != key)

/-- The `MeshestraError` enum of src/src/error.rs. -/
inductive MErr where
  | DependencyNotFound (type_name : String)
  | DowncastFailed (type_name : String)
  | CircularDependency (cycle : String)
  | ScopeMismatch (message : String)
  | ModuleRegistrationFailed (message : String)
  | Internal (msg : String)
deriving Repr, DecidableEq

/-- The `Display` rendering of `MeshestraError`, from its `thiserror`
attributes in src/src/error.rs. -/
def MErr.display : MErr → String
  | .DependencyNotFound n => "Dependency not found: " ++ n
  | .DowncastFailed n => "Failed to downcast type: " ++ n
  | .CircularDependency c => "Circular dependency detected: " ++ c
  | .ScopeMismatch m => "Scope mismatch: " ++ m
  | .ModuleRegistrationFailed m => "Module registration failed: " ++ m
  | .Internal m => "Internal error: " ++ m

/-- A `ServiceEntry` of src/src/di/container.rs: the erased instance is a
payload value tagged with the dynamic type identity it was created with,
plus the recorded type name. -/
structure ServiceEntry where
  typeId : Nat
  value : Nat
  type_name : String
deriving Repr, DecidableEq

/-- A caster stored by `register_trait`: the closure downcasts its input
to the implementation type `Impl` (panicking on mismatch) and then applies
the user-supplied coercion, so it is determined by the implementation
identity and the coercion on payloads. -/
structure Caster where
  implId : Nat
  cast : Nat → Nat

/-- The `Container` of src/src/di/container.rs: services, trait-to-impl
mappings, and casters. -/
structure Container where
  services : List (Nat × ServiceEntry)
  trait_mappings : List (Nat × Nat)
  casters : List (Nat × Caster)

/-- `Container::new()`. -/
def Container.new : Container :=
  { services := [], trait_mappings := [], casters := [] }

/-- `Container::register::<T>(instance)`: stores the instance under `T`'s
identity, overwriting any prior entry. -/
def Container.register (c : Container) (tid : Nat) (tname : String) (v : Nat) :
    Container :=
  { c with
      services :=
        dashInsert c.services tid { typeId := tid, value := v, type_name := tname } }

/-- `Container::register_trait::<Trait, Impl>(caster_fn)`: records the
trait-to-impl mapping and the caster, both keyed by the trait identity. -/
def Container.register_trait (c : Container) (traitId implId : Nat)
    (castFn : Nat → Nat) : Container :=
  { c with
      trait_mappings := dashInsert c.trait_mappings traitId implId,
      casters := dashInsert c.casters traitId { implId := implId, cast := castFn } }

/-- Outcome of a resolution call: success, a returned `MeshestraError`, or
a Rust panic (the `expect` inside a caster closure). -/
inductive ResolveOutcome where
  | ok (v : Nat)
  | err (e : MErr)
  | panicked (msg : String)
deriving Repr, DecidableEq

/-- `Container::resolve::<T>()`: look up `T`'s identity among the
services, then downcast the stored payload to `T`. -/
def Container.resolve (c : Container) (tid : Nat) (tname : String) :
    ResolveOutcome :=
  match dashGet c.services tid with
  | none => .err (.DependencyNotFound tname)
  | some entry =>
      if entry.typeId = tid then .ok entry.value
      else .err (.DowncastFailed tname)

/-- `Container::resolve_trait::<T>()`: requires a caster for `T`, then the
trait mapping, then the concrete service entry for the bound identity; the
caster's internal downcast panics if the payload's tag does not match the
implementation identity the caster was registered against.  (The final
wrapper downcast in the source cannot fail in the embedding: the caster
stored under a capability key always produces that capability's wrapper
shape.) -/
def Container.resolve_trait (c : Container) (traitId : Nat) (tname : String) :
    ResolveOutcome :=
  match dashGet c.casters traitId with
  | some caster =>
      match dashGet c.trait_mappings traitId with
      | none => .err (.DependencyNotFound tname)
      | some implId =>
          match dashGet c.services implId with
          | none => .err (.DependencyNotFound tname)
          | some entry =>
              if entry.typeId = caster.implId then .ok (caster.cast entry.value)
              else .panicked "Failed to downcast to implementation type"
  | none => .err (.DependencyNotFound "Unknown Trait")

/-- `Container::contains::<T>()`: true when a service entry or a trait
mapping is registered under `T`'s identity. -/
def Container.contains (c : Container) (tid : Nat) : Bool :=
  (dashGet c.services tid).isSome || (dashGet c.trait_mappings tid).isSome

/-- The `IsolationLevel` enum of src/src/transactional/mod.rs. -/
inductive IsolationLevel where
  | ReadUncommitted
  | ReadCommitted
  | RepeatableRead
  | Serializable
deriving Repr, DecidableEq

/-- The `Propagation` enum of src/src/transactional/mod.rs. -/
inductive Propagation where
  | Required
  | RequiresNew
  | Supports
  | Mandatory
  | Nested
  | Never
  | NotSupported
deriving Repr, DecidableEq

/-- The `TransactionOptions` struct of src/src/transactional/mod.rs. -/
structure TransactionOptions where
  isolation : Option IsolationLevel
  propagation : Propagation
  read_only : Bool
deriving Repr, DecidableEq

/-- `TransactionOptions::default()`. -/
def TransactionOptions.default : TransactionOptions :=
  { isolation := none, propagation := .Required, read_only := false }

/-- State of the tokio task-local `ACTIVE_TRANSACTION` slot: `none` means
no scope is installed for the current task (so `try_with` fails), and
`some v` means a scope holding `v` is installed.  Transaction handles are
identified by the `Nat` handed out by the manager's `begin`. -/
abbrev SlotState := Option (Option Nat)

/-- `get_current_transaction()` of src/src/transactional/mod.rs:
`ACTIVE_TRANSACTION.try_with(|tx| tx.clone()).unwrap_or(None)`. -/
def get_current_transaction (s : SlotState) : Option Nat :=
  match s with
  | some v => v
  | none => none

/-- One invocation on the transaction manager or on a begun handle,
recorded in order of occurrence. -/
inductive TxEvent where
  | begin (id : Nat)
  | commit (id : Nat)
  | rollback (id : Nat)
deriving Repr, DecidableEq

/-- Observable transaction-side state threaded through a boundary: the
next handle identity the manager will hand out, and the trace of
manager/handle invocations so far. -/
structure TxState where
  nextId : Nat
  events : List TxEvent
deriving Repr, DecidableEq

/-- Behaviour of the external collaborators: whether the manager's
`begin` fails, and whether a given handle's `commit`/`rollback` fails. -/
structure ManagerBehavior where
  beginErr : Option MErr
  commitErr : Nat → Option MErr
  rollbackErr : Nat → Option MErr

/-- Result of running a `#[transactional]`-wrapped function: the wrapped
function's own `Result`, or a Rust panic raised by the generated code. -/
inductive BoundaryResult (E A : Type) where
  | ok (a : A)
  | err (e : E)
  | panicked (msg : String)
deriving Repr, DecidableEq

/-- The body generated by `transactional_attribute`
(src/meshestra-macro/src/transactional.rs) around a wrapped operation
`op`, which runs under the slot state it is handed and may read it via
`get_current_transaction`.  `intoE` is the `From<MeshestraError>`
conversion into the wrapped function's error type used by `?` and by the
commit-failure return.  Returns the wrapped call's outcome, the
transaction-side state, and the slot state in effect after the boundary
(`scope` restores the surrounding value). -/
def transactionalBoundary {E A : Type} (opts : TransactionOptions)
    (beh : ManagerBehavior) (intoE : MErr → E)
    (op : SlotState → Except E A)
    (slot : SlotState) (st : TxState) :
    BoundaryResult E A × TxState × SlotState :=
  if opts.propagation = Propagation.Required then
    match get_current_transaction slot with
    | some _ =>
        match op slot with
        | .ok a => (.ok a, st, slot)
        | .error e => (.err e, st, slot)
    | none =>
        match beh.beginErr with
        | some e => (.err (intoE (.Internal (MErr.display e))), st, slot)
        | none =>
            let id := st.nextId
            let stBegun : TxState :=
              { nextId := id + 1, events := st.events ++ [TxEvent.begin id] }
            match op (some (some id)) with
            | .ok a =>
                let stFin : TxState :=
                  { stBegun with events := stBegun.events ++ [TxEvent.commit id] }
                match beh.commitErr id with
                | none => (.ok a, stFin, slot)
                | some e =>
                    (.err (intoE (.Internal
                        ("Failed to commit transaction: " ++ MErr.display e))),
                      stFin, slot)
            | .error e =>
                let stFin : TxState :=
                  { stBegun with events := stBegun.events ++ [TxEvent.rollback id] }
                (.err e, stFin, slot)
  else
    (.panicked "Only Propagation::Required is currently supported by #[transactional]",
      st, slot)

/-- Model of `sea_orm::DatabaseTransaction` at the interface consumed by
`SeaOrmTransaction`: whether its `commit` / `rollback` call fails. -/
structure DatabaseTransaction where
  commitErr : Option String
  rollbackErr : Option String
deriving Repr, DecidableEq

/-- `SeaOrmTransaction` of
src/examples/example-server/src/infrastructure/transaction.rs: the inner
transaction is held in an `Option` because SeaORM's finalizers consume
it. -/
structure SeaOrmTransaction where
  inner : Option DatabaseTransaction
deriving Repr, DecidableEq

/-- `SeaOrmTransaction::commit`: `self.inner.take()` then commit the
inner transaction; with `inner` already taken it errors. -/
def SeaOrmTransaction.commit (t : SeaOrmTransaction) :
    Except MErr Unit × SeaOrmTransaction :=
  match t.inner with
  | some dbtx =>
      (match dbtx.commitErr with
       | none => .ok ()
       | some e => .error (.Internal e),
       { inner := none })
  | none =>
      (.error (.Internal
          "Attempted to commit a transaction that has already been finalized."),
        { inner := none })

/-- `SeaOrmTransaction::rollback`: `self.inner.take()` then roll back the
inner transaction; with `inner` already taken it is a benign no-op. -/
def SeaOrmTransaction.rollback (t : SeaOrmTransaction) :
    Except MErr Unit × SeaOrmTransaction :=
  match t.inner with
  | some dbtx =>
      (match dbtx.rollbackErr with
       | none => .ok ()
       | some e => .error (.Internal e),
       { inner := none })
  | none => (.ok (), { inner := none })

/-- A manager/handle behaviour where `begin` and `commit` succeed but
`rollback` of handle 0 fails, for demonstrations. -/
def behRollbackFails : ManagerBehavior :=
  { beginErr := none,
    commitErr := fun _ => none,
    rollbackErr := fun _ => some (.Internal "rollback wire error") }

/-- A manager/handle behaviour where everything succeeds. -/
def behAllOk : ManagerBehavior :=
  { beginErr := none, commitErr := fun _ => none, rollbackErr := fun _ => none }

/-- Boundary options with propagation `RequiresNew`. -/
def optsRequiresNew : TransactionOptions :=
  { isolation := none, propagation := .RequiresNew, read_only := false }

/-- An initial transaction-side state: no handles yet, empty trace. -/
def stEmpty : TxState := { nextId := 0, events := [] }

/-- A wrapped operation that always fails with a fixed application error. -/
def opFail : SlotState → Except MErr Nat :=
  fun _ => .error (.Internal "boom")

/-- A wrapped operation that always succeeds. -/
def opOk : SlotState → Except MErr Nat :=
  fun _ => .ok 41

/-- A wrapped operation that reports what `get_current_transaction`
observes inside the boundary. -/
def opObserve : SlotState → Except MErr (Option Nat) :=
  fun s => .ok (get_current_transaction s)

/-- Looking up the key just inserted yields the inserted value. -/
theorem dashGet_dashInsert_self {β : Type} (l : List (Nat × β)) (k : Nat) (v : β) :
    dashGet (dashInsert l k v) k = some v := by
  simp [dashInsert, dashGet]

/-- Dropping the entries for key `k` does not change lookups of a
different key. -/
theorem dashGet_filter_ne {β : Type} (l : List (Nat × β)) (k key : Nat)
    (h : key ≠ k) :
    dashGet (l.filter (fun e => e.1 != k)) key = dashGet l key := by
  induction l with
  | nil => rfl
  | cons x xs ih =>
      by_cases hx : x.1 = k
      · have hky : ¬ k = key := fun hh => h hh.symm
        simp [List.filter_cons, hx, dashGet, hky, ih]
      · by_cases hxy : x.1 = key <;>
          simp [List.filter_cons, hx, dashGet, hxy, ih, h]

/-- Inserting under key `k` does not change lookups of a different key. -/
theorem dashGet_dashInsert_ne {β : Type} (l : List (Nat × β)) (k key : Nat)
    (v : β) (h : key ≠ k) :
    dashGet (dashInsert l k v) key = dashGet l key := by
  have hk : ¬ k = key := fun hh => h hh.symm
  simp [dashInsert, dashGet, hk, dashGet_filter_ne l k key h]

/-- After dropping the entries for key `k`, no entry for `k` remains. -/
theorem filter_key_filter_ne {β : Type} (l : List (Nat × β)) (k : Nat) :
    (l.filter (fun e => e.1 != k)).filter (fun e => e.1 == k) = [] := by
  induction l with
  | nil => rfl
  | cons x xs ih => by_cases hx : x.1 = k <;> simp [List.filter_cons, hx, ih]

/-- After an insert, exactly one entry carries the inserted key. -/
theorem dashInsert_key_count {β : Type} (l : List (Nat × β)) (k : Nat) (v : β) :
    ((dashInsert l k v).filter (fun e => e.1 == k)).length = 1 := by
  simp [dashInsert, List.filter_cons, filter_key_filter_ne]

/-- C8: registering a type twice in the same container leaves exactly one
service entry under its identity, and a subsequent resolve returns the
second (most recently registered) instance, never the first. -/
theorem register_twice_last_wins (c : Container) (tid : Nat) (tname : String)
    (v1 v2 : Nat) :
    (((c.register tid tname v1).register tid tname v2).services.filter
        (fun e => e.1 == tid)).length = 1
    ∧ ((c.register tid tname v1).register tid tname v2).resolve tid tname
        = ResolveOutcome.ok v2
    ∧ (v1 ≠ v2 →
        ((c.register tid tname v1).register tid tname v2).resolve tid tname
          ≠ ResolveOutcome.ok v1) := by
  have hres : ((c.register tid tname v1).register tid tname v2).resolve tid tname
      = ResolveOutcome.ok v2 := by
    simp [Container.register, Container.resolve, dashGet_dashInsert_self]
  refine ⟨?_, hres, ?_⟩
  · simpa [Container.register] using
      dashInsert_key_count ((c.register tid tname v1).services) tid
        { typeId := tid, value := v2, type_name := tname }
  · intro hne
    rw [hres]
    simp [Ne.symm hne]

/-- C8 witness at a concrete container and pair of instances. -/
theorem register_twice_last_wins_witness :
    ((((Container.new.register 5 "TestService" 1).register 5 "TestService" 2).services.filter
        (fun e => e.1 == 5)).length = 1)
    ∧ (((Container.new.register 5 "TestService" 1).register 5 "TestService" 2).resolve 5
          "TestService" = ResolveOutcome.ok 2)
    ∧ (((Container.new.register 5 "TestService" 1).register 5 "TestService" 2).resolve 5
          "TestService" ≠ ResolveOutcome.ok 1) :=
  ⟨(register_twice_last_wins Container.new 5 "TestService" 1 2).1,
   (register_twice_last_wins Container.new 5 "TestService" 1 2).2.1,
   (register_twice_last_wins Container.new 5 "TestService" 1 2).2.2 (by decide)⟩

/-- C7: registering the trait binding before the concrete instance or the
other way round yields the same container, and resolving the capability
afterwards succeeds with the casted instance. -/
theorem binding_registration_order_independent (c : Container)
    (traitId implId : Nat) (castFn : Nat → Nat) (tname iname : String) (v : Nat) :
    (c.register_trait traitId implId castFn).register implId iname v
      = (c.register implId iname v).register_trait traitId implId castFn
    ∧ ((c.register_trait traitId implId castFn).register implId iname v).resolve_trait
        traitId tname = ResolveOutcome.ok (castFn v) := by
  constructor
  · rfl
  · simp [Container.register, Container.register_trait, Container.resolve_trait,
      dashGet_dashInsert_self]

/-- C6: without a binding, resolve_trait fails with DependencyNotFound on
the message "Unknown Trait"; with a binding whose bound implementation is
unregistered, it fails with DependencyNotFound on the capability's type
name; the two messages differ whenever the capability's type name is not
the literal "Unknown Trait". -/
theorem resolve_trait_miss_messages (c : Container) (traitId implId : Nat)
    (castFn : Nat → Nat) (tname : String)
    (hNoCaster : dashGet c.casters traitId = none)
    (hNoMapping : dashGet c.trait_mappings traitId = none)
    (hNoImpl : dashGet c.services implId = none)
    (hName : tname ≠ "Unknown Trait") :
    c.resolve_trait traitId tname
        = ResolveOutcome.err (MErr.DependencyNotFound "Unknown Trait")
    ∧ (c.register_trait traitId implId castFn).resolve_trait traitId tname
        = ResolveOutcome.err (MErr.DependencyNotFound tname)
    ∧ MErr.DependencyNotFound "Unknown Trait" ≠ MErr.DependencyNotFound tname := by
  refine ⟨?_, ?_, ?_⟩
  · simp [Container.resolve_trait, hNoCaster]
  · simp [Container.resolve_trait, Container.register_trait,
      dashGet_dashInsert_self, hNoImpl]
  · simp [Ne.symm hName]

/-- C6 witness: an empty container, capability identity 1 bound to
implementation identity 2. -/
theorem resolve_trait_miss_messages_witness :
    Container.new.resolve_trait 1 "dyn UserRepository"
        = ResolveOutcome.err (MErr.DependencyNotFound "Unknown Trait")
    ∧ (Container.new.register_trait 1 2 (fun v => v)).resolve_trait 1 "dyn UserRepository"
        = ResolveOutcome.err (MErr.DependencyNotFound "dyn UserRepository")
    ∧ MErr.DependencyNotFound "Unknown Trait"
        ≠ MErr.DependencyNotFound "dyn UserRepository" :=
  resolve_trait_miss_messages Container.new 1 2 (fun v => v) "dyn UserRepository"
    rfl rfl rfl (by decide)

/-- C9: resolving an unregistered concrete type returns
DependencyNotFound, and resolving an unbound capability returns
DependencyNotFound; neither call panics. -/
theorem resolve_miss_dependency_not_found (c : Container) (tid capId : Nat)
    (tname capName : String)
    (hs : dashGet c.services tid = none)
    (hc : dashGet c.casters capId = none) :
    c.resolve tid tname = ResolveOutcome.err (MErr.DependencyNotFound tname)
    ∧ c.resolve_trait capId capName
        = ResolveOutcome.err (MErr.DependencyNotFound "Unknown Trait") := by
  constructor
  · simp [Container.resolve, hs]
  · simp [Container.resolve_trait, hc]

/-- C9 witness: the empty container. -/
theorem resolve_miss_dependency_not_found_witness :
    Container.new.resolve 3 "TestService"
        = ResolveOutcome.err (MErr.DependencyNotFound "TestService")
    ∧ Container.new.resolve_trait 4 "dyn Repo"
        = ResolveOutcome.err (MErr.DependencyNotFound "Unknown Trait") :=
  resolve_miss_dependency_not_found Container.new 3 4 "TestService" "dyn Repo" rfl rfl

/-- C10: with a trait binding registered but no service entry for the
bound implementation identity, contains reports true for the capability
while resolve_trait fails with DependencyNotFound. -/
theorem contains_true_resolve_trait_fails (c : Container) (traitId implId : Nat)
    (castFn : Nat → Nat) (tname : String)
    (hNoImpl : dashGet c.services implId = none) :
    (c.register_trait traitId implId castFn).contains traitId = true
    ∧ (c.register_trait traitId implId castFn).resolve_trait traitId tname
        = ResolveOutcome.err (MErr.DependencyNotFound tname) := by
  constructor
  · simp [Container.contains, Container.register_trait, dashGet_dashInsert_self]
  · simp [Container.resolve_trait, Container.register_trait,
      dashGet_dashInsert_self, hNoImpl]

/-- C10 witness: an empty container with one dangling binding. -/
theorem contains_true_resolve_trait_fails_witness :
    (Container.new.register_trait 1 2 (fun v => v)).contains 1 = true
    ∧ (Container.new.register_trait 1 2 (fun v => v)).resolve_trait 1 "dyn Repo"
        = ResolveOutcome.err (MErr.DependencyNotFound "dyn Repo") :=
  contains_true_resolve_trait_fails Container.new 1 2 (fun v => v) "dyn Repo" rfl

/-- A boundary always leaves the ambient slot at the value surrounding
it: the `scope` call restores the previous value on every path. -/
theorem transactionalBoundary_restores_slot {E A : Type}
    (opts : TransactionOptions) (beh : ManagerBehavior) (intoE : MErr → E)
    (op : SlotState → Except E A) (slot : SlotState) (st : TxState) :
    (transactionalBoundary opts beh intoE op slot st).2.2 = slot := by
  unfold transactionalBoundary
  split
  · split
    · split <;> rfl
    · split
      · rfl
      · cases hop : op (some (some st.nextId)) <;>
          cases hc : beh.commitErr st.nextId <;> simp [hop, hc]
  · rfl

/-- C1: a Required boundary entered with no ambient transaction begins a
handle and, on operation success, commits it exactly once with no
rollback; on operation failure it rolls it back exactly once with no
commit and returns the operation's original error, whatever the
rollback's own outcome. -/
theorem required_new_boundary_commit_rollback {E A : Type}
    (opts : TransactionOptions) (beh : ManagerBehavior) (intoE : MErr → E)
    (op : SlotState → Except E A) (slot : SlotState) (st : TxState)
    (hReq : opts.propagation = Propagation.Required)
    (hAbsent : get_current_transaction slot = none)
    (hBegin : beh.beginErr = none) :
    (∀ a : A, op (some (some st.nextId)) = Except.ok a →
        (transactionalBoundary opts beh intoE op slot st).2.1.events
          = st.events ++ [TxEvent.begin st.nextId, TxEvent.commit st.nextId])
    ∧ (∀ e : E, op (some (some st.nextId)) = Except.error e →
        (transactionalBoundary opts beh intoE op slot st).2.1.events
          = st.events ++ [TxEvent.begin st.nextId, TxEvent.rollback st.nextId]
        ∧ (transactionalBoundary opts beh intoE op slot st).1
          = BoundaryResult.err e) := by
  constructor
  · intro a ha
    cases hc : beh.commitErr st.nextId <;>
      simp [transactionalBoundary, hReq, hAbsent, hBegin, ha, hc]
  · intro e he
    simp [transactionalBoundary, hReq, hAbsent, hBegin, he]

/-- C1 witness: a failing operation under a handle whose rollback also
fails still surfaces the operation's own error after exactly one
rollback, and a succeeding operation leads to exactly one commit. -/
theorem required_new_boundary_commit_rollback_witness :
    ((transactionalBoundary TransactionOptions.default behRollbackFails id opFail
        none stEmpty).2.1.events = [TxEvent.begin 0, TxEvent.rollback 0]
      ∧ (transactionalBoundary TransactionOptions.default behRollbackFails id opFail
          none stEmpty).1 = BoundaryResult.err (MErr.Internal "boom"))
    ∧ (transactionalBoundary TransactionOptions.default behAllOk id opOk
        none stEmpty).2.1.events = [TxEvent.begin 0, TxEvent.commit 0] :=
  ⟨(required_new_boundary_commit_rollback TransactionOptions.default behRollbackFails
      id opFail none stEmpty rfl rfl rfl).2 (MErr.Internal "boom") rfl,
   (required_new_boundary_commit_rollback TransactionOptions.default behAllOk
      id opOk none stEmpty rfl rfl rfl).1 41 rfl⟩

/-- C2 (amended): a boundary whose propagation mode is anything other
than Required — RequiresNew included — panics with the generated code's
message, performs no transaction work, and never runs the wrapped
operation. -/
theorem non_required_propagation_panics {E A : Type}
    (opts : TransactionOptions) (beh : ManagerBehavior) (intoE : MErr → E)
    (op : SlotState → Except E A) (slot : SlotState) (st : TxState)
    (hNotReq : opts.propagation ≠ Propagation.Required) :
    transactionalBoundary opts beh intoE op slot st
      = (BoundaryResult.panicked
          "Only Propagation::Required is currently supported by #[transactional]",
        st, slot) := by
  simp [transactionalBoundary, hNotReq]

/-- C2 witness: a RequiresNew boundary at a concrete ambient state. -/
theorem non_required_propagation_panics_witness :
    transactionalBoundary optsRequiresNew behAllOk id opOk (some (some 3)) stEmpty
      = (BoundaryResult.panicked
          "Only Propagation::Required is currently supported by #[transactional]",
        stEmpty, some (some 3)) :=
  non_required_propagation_panics optsRequiresNew behAllOk id opOk (some (some 3))
    stEmpty (by decide)

/-- C2 counterexample: a boundary invoked with RequiresNew while a
transaction is ambient begins no fresh handle — its event trace stays
empty — because the generated code panics for every mode but Required. -/
theorem requiresNew_no_fresh_handle_counterexample :
    (transactionalBoundary optsRequiresNew behAllOk id opOk (some (some 7))
        stEmpty).2.1.events = []
    ∧ (transactionalBoundary optsRequiresNew behAllOk id opOk (some (some 7))
        stEmpty).1
      = BoundaryResult.panicked
          "Only Propagation::Required is currently supported by #[transactional]" := by
  constructor <;> rfl

/-- C3: a Required boundary that starts a new transaction lets every
nested read of the ambient slot observe exactly the begun handle, and
once the boundary returns the slot is back to the surrounding value,
which reads as none. -/
theorem required_new_boundary_ambient_scoping (opts : TransactionOptions)
    (beh : ManagerBehavior) (slot : SlotState) (st : TxState)
    (hReq : opts.propagation = Propagation.Required)
    (hAbsent : get_current_transaction slot = none)
    (hBegin : beh.beginErr = none)
    (hCommit : beh.commitErr st.nextId = none) :
    (transactionalBoundary opts beh id opObserve slot st).1
      = BoundaryResult.ok (some st.nextId)
    ∧ (∀ (E A : Type) (intoE : MErr → E) (op : SlotState → Except E A),
        (transactionalBoundary opts beh intoE op slot st).2.2 = slot
        ∧ get_current_transaction
            ((transactionalBoundary opts beh intoE op slot st).2.2) = none) := by
  constructor
  · unfold transactionalBoundary
    rw [hReq, hAbsent, hBegin]
    simp [opObserve, get_current_transaction, hCommit]
  · intro E A intoE op
    refine ⟨transactionalBoundary_restores_slot opts beh intoE op slot st, ?_⟩
    rw [transactionalBoundary_restores_slot opts beh intoE op slot st]
    exact hAbsent

/-- C3 witness: starting from no installed scope, the observer sees
handle 0 inside the boundary and the slot reads none afterwards. -/
theorem required_new_boundary_ambient_scoping_witness :
    (transactionalBoundary TransactionOptions.default behAllOk id opObserve
        none stEmpty).1 = BoundaryResult.ok (some 0)
    ∧ (transactionalBoundary TransactionOptions.default behAllOk id opOk
        none stEmpty).2.2 = none
    ∧ get_current_transaction
        ((transactionalBoundary TransactionOptions.default behAllOk id opOk
            none stEmpty).2.2) = none :=
  ⟨(required_new_boundary_ambient_scoping TransactionOptions.default behAllOk
      none stEmpty rfl rfl rfl rfl).1,
   ((required_new_boundary_ambient_scoping TransactionOptions.default behAllOk
      none stEmpty rfl rfl rfl rfl).2 MErr Nat id opOk).1,
   ((required_new_boundary_ambient_scoping TransactionOptions.default behAllOk
      none stEmpty rfl rfl rfl rfl).2 MErr Nat id opOk).2⟩

/-- C4: a Required boundary entered while a transaction is ambient
performs no begin, commit, or rollback (its event trace and manager state
are untouched), leaves the slot identical, and the wrapped operation
observes the very ambient handle that was already installed. -/
theorem required_join_noop (opts : TransactionOptions) (beh : ManagerBehavior)
    (slot : SlotState) (st : TxState) (h : Nat)
    (hReq : opts.propagation = Propagation.Required)
    (hActive : get_current_transaction slot = some h) :
    (∀ (E A : Type) (intoE : MErr → E) (op : SlotState → Except E A),
        (transactionalBoundary opts beh intoE op slot st).2.1 = st
        ∧ (transactionalBoundary opts beh intoE op slot st).2.2 = slot)
    ∧ (transactionalBoundary opts beh id opObserve slot st).1
      = BoundaryResult.ok (some h) := by
  constructor
  · intro E A intoE op
    cases hop : op slot <;>
      simp [transactionalBoundary, hReq, hActive, hop]
  · simp [transactionalBoundary, hReq, hActive, opObserve]

/-- C4 witness: joining an ambient handle 7 changes nothing and the
operation observes handle 7. -/
theorem required_join_noop_witness :
    ((transactionalBoundary TransactionOptions.default behAllOk id opOk
        (some (some 7)) stEmpty).2.1 = stEmpty
      ∧ (transactionalBoundary TransactionOptions.default behAllOk id opOk
          (some (some 7)) stEmpty).2.2 = some (some 7))
    ∧ (transactionalBoundary TransactionOptions.default behAllOk id opObserve
        (some (some 7)) stEmpty).1 = BoundaryResult.ok (some 7) :=
  ⟨(required_join_noop TransactionOptions.default behAllOk (some (some 7)) stEmpty
      7 rfl rfl).1 MErr Nat id opOk,
   (required_join_noop TransactionOptions.default behAllOk (some (some 7)) stEmpty
      7 rfl rfl).2⟩

/-- C5: once a handle has been finalized by either commit or rollback, a
further commit returns the already-finalized error while a further
rollback returns success as a benign no-op. -/
theorem finalized_handle_commit_errors_rollback_noop (t : SeaOrmTransaction) :
    ((t.commit.2).commit.1
        = Except.error (MErr.Internal
            "Attempted to commit a transaction that has already been finalized.")
      ∧ (t.commit.2).rollback.1 = Except.ok ())
    ∧ ((t.rollback.2).commit.1
        = Except.error (MErr.Internal
            "Attempted to commit a transaction that has already been finalized.")
      ∧ (t.rollback.2).rollback.1 = Except.ok ()) := by
  obtain ⟨inner⟩ := t
  cases inner <;> simp [SeaOrmTransaction.commit, SeaOrmTransaction.rollback]
